import Mathlib

/-!
Verification development for the serverless user-address API.

The definitions below are a shallow embedding of the TypeScript source:

* `src/utils/validation.ts` — the pure validation predicates;
* `src/schemas/address.ts` — the Joi creation and update schemas;
* `src/handlers/store-address.ts` (the variant with the duplicate check),
  `src/handlers/update-address.ts`, `src/handlers/delete-address.ts`,
  `src/handlers/get-addresses.ts` — the HTTP handlers, modelled as pure
  functions from the request pieces and the current table contents to an
  HTTP response and the new table contents;
* `src/handlers/authorize.ts` — the Lambda token authorizer, modelled as a
  function parameterised by the base64 decoder, the SHA-256 hex digest
  function and the credential-table lookup, so that theorems quantify over
  those external collaborators.

JavaScript string values are modelled by Lean `String`; the JavaScript
string operations used by the source (`toLowerCase`, `toUpperCase`,
`trim`, `slice`, `split`, `length`, regex character classes) are defined
here over `String.data` so that every definition reduces in the kernel.
The handlers in the source are ASCII-only in all the claims considered,
so ASCII-only models of the Unicode-aware JavaScript operations are used
(each such definition notes this).
-/

namespace UserAddressApi

/-- Characters of the JavaScript regex class `\s` (and of `String.prototype.trim`)
restricted to the ASCII range: space, tab, line feed, carriage return,
vertical tab and form feed.  JavaScript additionally treats some Unicode
spaces as `\s`; none of them occur in the claims. -/
def isJsSpace (c : Char) : Bool :=
  c = ' ' || c = '\t' || c = '\n' || c = '\r' || c = '\x0B' || c = '\x0C'

/-- Length of a JavaScript string.  JavaScript counts UTF-16 code units;
for the ASCII data handled here this is the number of characters. -/
def jsLength (s : String) : Nat :=
  s.data.length

/-- Model of `String.prototype.toLowerCase` (ASCII range). -/
def jsToLower (s : String) : String :=
  ⟨s.data.map Char.toLower⟩

/-- Model of `String.prototype.toUpperCase` (ASCII range). -/
def jsToUpper (s : String) : String :=
  ⟨s.data.map Char.toUpper⟩

/-- Model of `String.prototype.trim`: strip `isJsSpace` characters from both ends. -/
def jsTrim (s : String) : String :=
  ⟨((s.data.dropWhile isJsSpace).reverse.dropWhile isJsSpace).reverse⟩

/-- Model of `String.prototype.slice(n)`: drop the first `n` code units. -/
def dropChars (s : String) (n : Nat) : String :=
  ⟨s.data.drop n⟩

/-- ASCII letter, the regex class `[a-zA-Z]`. -/
def isAsciiLetter (c : Char) : Bool :=
  ('a' ≤ c && c ≤ 'z') || ('A' ≤ c && c ≤ 'Z')

/-- Character class of the `userId` regex `[a-zA-Z0-9_-]` in
`isValidUserId` (src/utils/validation.ts). -/
def isUserIdChar (c : Char) : Bool :=
  isAsciiLetter c || c.isDigit || c = '_' || c = '-'

/-- Embedding of `isValidUserId` (src/utils/validation.ts): length between
1 and 128, and every character drawn from `[a-zA-Z0-9_-]` (the regex
`^[a-zA-Z0-9_-]+$`, whose `+` also demands a non-empty string). -/
def isValidUserId (userId : String) : Bool :=
  if jsLength userId < 1 ∨ 128 < jsLength userId then false
  else !userId.data.isEmpty && userId.data.all isUserIdChar

/-- Hexadecimal digit of the case-insensitive regex class `[0-9a-f]` with the `i` flag. -/
def isHexChar (c : Char) : Bool :=
  c.isDigit || ('a' ≤ c && c ≤ 'f') || ('A' ≤ c && c ≤ 'F')

/-- UUID version nibble, the regex class `[1-5]`. -/
def isVersionNibble (c : Char) : Bool :=
  '1' ≤ c && c ≤ '5'

/-- UUID variant nibble, the regex class `[89ab]` under the `i` flag. -/
def isVariantNibble (c : Char) : Bool :=
  c = '8' || c = '9' || c = 'a' || c = 'b' || c = 'A' || c = 'B'

/-- Model of `String.prototype.split(sep)` for a single-character separator,
working on the character list.  `splitOnChar ':' "a:b:c".data` is
`[['a'], ['b'], ['c']]`, and the empty string splits to `[[]]`, exactly as
in JavaScript. -/
def splitOnChar (sep : Char) : List Char → List (List Char)
  | [] => [[]]
  | c :: cs =>
    match splitOnChar sep cs with
    | [] => [[]]
    | h :: t => if c = sep then [] :: h :: t else (c :: h) :: t

/-- Embedding of `isValidAddressId` (src/utils/validation.ts): the UUID
regex `^[0-9a-f]{8}-[0-9a-f]{4}-[1-5][0-9a-f]{3}-[89ab][0-9a-f]{3}-[0-9a-f]{12}$/i`.
Since `-` is not a hex digit, a string matches that regex exactly when
splitting on `-` yields five groups of hex digits of lengths 8, 4, 4, 4
and 12, the third group starting with a version nibble and the fourth
with a variant nibble. -/
def isValidAddressId (addressId : String) : Bool :=
  match splitOnChar '-' addressId.data with
  | [g1, g2, g3, g4, g5] =>
    g1.length == 8 && g1.all isHexChar &&
    g2.length == 4 && g2.all isHexChar &&
    g3.length == 4 && g3.all isHexChar &&
    (match g3 with | v :: _ => isVersionNibble v | [] => false) &&
    g4.length == 4 && g4.all isHexChar &&
    (match g4 with | n :: _ => isVariantNibble n | [] => false) &&
    g5.length == 12 && g5.all isHexChar
  | _ => false

/-- Character class of the street-address regex `[a-zA-Z0-9\s\-'.,#]`. -/
def isStreetChar (c : Char) : Bool :=
  isAsciiLetter c || c.isDigit || isJsSpace c ||
  c = '-' || c = '\'' || c = '.' || c = ',' || c = '#'

/-- Embedding of `isValidStreetAddress` (src/utils/validation.ts): the
regex `^[a-zA-Z0-9\s\-'.,#]+$` and a non-empty trimmed value. -/
def isValidStreetAddress (streetAddress : String) : Bool :=
  (!streetAddress.data.isEmpty && streetAddress.data.all isStreetChar) &&
  !(jsTrim streetAddress).data.isEmpty

/-- Character class of the suburb regex `[a-zA-Z0-9\s\-'.]`. -/
def isSuburbChar (c : Char) : Bool :=
  isAsciiLetter c || c.isDigit || isJsSpace c ||
  c = '-' || c = '\'' || c = '.'

/-- Embedding of `isValidSuburb` (src/utils/validation.ts): the regex
`^[a-zA-Z0-9\s\-'.]+$` and a non-empty trimmed value. -/
def isValidSuburb (suburb : String) : Bool :=
  (!suburb.data.isEmpty && suburb.data.all isSuburbChar) &&
  !(jsTrim suburb).data.isEmpty

/-- Valid Australian state and territory codes, from `isValidState`. -/
def validStates : List String :=
  ["NSW", "VIC", "QLD", "WA", "SA", "TAS", "ACT", "NT"]

/-- Embedding of `isValidState` (src/utils/validation.ts):
`validStates.includes(state.toUpperCase())`. -/
def isValidState (state : String) : Bool :=
  validStates.contains (jsToUpper state)

/-- Character class of the country regex `[a-zA-Z0-9\s\-']`. -/
def isCountryChar (c : Char) : Bool :=
  isAsciiLetter c || c.isDigit || isJsSpace c || c = '-' || c = '\''

/-- Embedding of `isValidCountry` (src/utils/validation.ts): the regex
`^[a-zA-Z0-9\s\-']+$` and a non-empty trimmed value. -/
def isValidCountry (country : String) : Bool :=
  (!country.data.isEmpty && country.data.all isCountryChar) &&
  !(jsTrim country).data.isEmpty

/-- Embedding of `isValidPostcode` (src/utils/validation.ts): the regex
`^\d{4}$`, i.e. exactly four decimal digits. -/
def isValidPostcode (postcode : String) : Bool :=
  postcode.data.length == 4 && postcode.data.all Char.isDigit

/-! ### Data model and HTTP responses -/

/-- Address record as persisted by the Write Engine (src/types/address.ts,
interface `Address`): `addressType` is the only optional attribute. -/
structure Address where
  userId : String
  addressId : String
  streetAddress : String
  suburb : String
  state : String
  postcode : String
  country : String
  addressType : Option String
  createdAt : String
  updatedAt : String
deriving Repr, DecidableEq

/-- Item of the addresses table as the key-value store sees it: the
composite key is always present, every other attribute may be absent.
Records written by the Write Engine have all attributes present (except
possibly `addressType`); items materialised by an upsert-on-update may
hold only a subset. -/
structure Item where
  userId : String
  addressId : String
  streetAddress : Option String := none
  suburb : Option String := none
  state : Option String := none
  postcode : Option String := none
  country : Option String := none
  addressType : Option String := none
  createdAt : Option String := none
  updatedAt : Option String := none
deriving Repr, DecidableEq

/-- HTTP response as the handlers build it: a status code, the `message`
field of the JSON body and the optional machine-readable `error` code. -/
structure HttpResponse where
  status : Nat
  message : String
  error : Option String := none
deriving Repr, DecidableEq

/-! ### Joi schemas (src/schemas/address.ts) -/

/-- Parsed JSON body of a POST, before schema validation: each of the six
recognised fields may be absent. -/
structure CreateBody where
  streetAddress : Option String := none
  suburb : Option String := none
  state : Option String := none
  postcode : Option String := none
  country : Option String := none
  addressType : Option String := none
deriving Repr, DecidableEq

/-- Value produced by a successful `addressCreationSchema.validate`:
all required fields present, `country` defaulted. -/
structure ValidatedCreate where
  streetAddress : String
  suburb : String
  state : String
  postcode : String
  country : String
  addressType : Option String
deriving Repr, DecidableEq

/-- Allowed `addressType` values, from
`Joi.string().valid('billing', 'mailing', 'residential', 'business')`. -/
def validAddressTypes : List String :=
  ["billing", "mailing", "residential", "business"]

/-- Per-field rule of the schemas for `streetAddress`:
`Joi.string().min(1).max(256)` plus the custom `isValidStreetAddress` check
(`Joi.string()` itself rejects the empty string). -/
def streetFieldOk (s : String) : Bool :=
  !s.data.isEmpty && decide (jsLength s ≤ 256) && isValidStreetAddress s

/-- Per-field rule of the schemas for `suburb`:
`Joi.string().min(1).max(128)` plus the custom `isValidSuburb` check. -/
def suburbFieldOk (s : String) : Bool :=
  !s.data.isEmpty && decide (jsLength s ≤ 128) && isValidSuburb s

/-- Per-field rule of the schemas for `state`: `Joi.string()` (non-empty)
plus the custom `isValidState` check. -/
def stateFieldOk (s : String) : Bool :=
  !s.data.isEmpty && isValidState s

/-- Per-field rule of the schemas for `postcode`:
`Joi.string().pattern(/^\d{4}$/)`; the pattern already forces a non-empty
string, matching `isValidPostcode`. -/
def postcodeFieldOk (s : String) : Bool :=
  isValidPostcode s

/-- Per-field rule of the schemas for `country`: `Joi.string()` (non-empty)
plus the custom `isValidCountry` check. -/
def countryFieldOk (s : String) : Bool :=
  !s.data.isEmpty && isValidCountry s

/-- Per-field rule of the schemas for `addressType`: membership in the
fixed enumeration. -/
def addressTypeFieldOk (s : String) : Bool :=
  validAddressTypes.contains s

/-- Embedding of `addressCreationSchema.validate` (src/schemas/address.ts):
`streetAddress`, `suburb`, `state`, `postcode` are required, `country`
defaults to `"Australia"` when absent, `addressType` is optional.  The
schema performs no trimming and no case conversion, so the validated value
is exactly the incoming one (Joi's default value is not itself validated).
Returns `none` on any violation; the specific Joi error message is not
modelled, since no claim inspects it. -/
def addressCreationSchemaValidate (b : CreateBody) : Option ValidatedCreate := do
  let sa ← b.streetAddress
  guard (streetFieldOk sa)
  let su ← b.suburb
  guard (suburbFieldOk su)
  let st ← b.state
  guard (stateFieldOk st)
  let pc ← b.postcode
  guard (postcodeFieldOk pc)
  match b.country with
  | some c => guard (countryFieldOk c)
  | none => pure ()
  match b.addressType with
  | some t => guard (addressTypeFieldOk t)
  | none => pure ()
  pure { streetAddress := sa, suburb := su, state := st, postcode := pc,
         country := b.country.getD "Australia", addressType := b.addressType }

/-- Parsed JSON body of a PATCH, before schema validation: every
recognised field optional (src/schemas/address.ts, `addressUpdateSchema`). -/
structure UpdateBody where
  streetAddress : Option String := none
  suburb : Option String := none
  state : Option String := none
  postcode : Option String := none
  country : Option String := none
  addressType : Option String := none
deriving Repr, DecidableEq

/-- Presence of at least one recognised field, the quantity `.min(1)`
inspects on the update schema's object. -/
def UpdateBody.hasAnyField (b : UpdateBody) : Bool :=
  b.streetAddress.isSome || b.suburb.isSome || b.state.isSome ||
  b.postcode.isSome || b.country.isSome || b.addressType.isSome

/-- Validation error raised by the update schema: either the object-level
`.min(1)` violation, or a field-level violation carrying the field name. -/
inductive UpdateError where
  | minKeys : UpdateError
  | invalidField : String → UpdateError
deriving Repr, DecidableEq

/-- Message of an update validation error, as surfaced through
`error.details[0].message`.  The `.min(1)` message is Joi's literal
`"value" must have at least 1 key` (also hard-coded at
src/handlers/update-address.ts:100); for field violations the schema's
custom message is summarised by the field name, since no claim inspects
those texts. -/
def UpdateError.message : UpdateError → String
  | .minKeys => "\"value\" must have at least 1 key"
  | .invalidField f => "invalid field: " ++ f

/-- Check of one optional field of the update schema. -/
def optFieldOk (f : Option String) (ok : String → Bool) : Bool :=
  match f with
  | none => true
  | some v => ok v

/-- Embedding of `addressUpdateSchema.validate` (src/schemas/address.ts):
every field optional but, when present, subject to the same per-field rule
as creation; the object as a whole must have at least one key (`.min(1)`).
The payload is modelled by its six recognised fields, so "at least one
key" is `UpdateBody.hasAnyField`.  A present field failing its rule and an
empty object never occur together, so the order of the two checks does not
matter; the value passes through unchanged on success. -/
def addressUpdateSchemaValidate (b : UpdateBody) : Except UpdateError UpdateBody :=
  if !b.hasAnyField then .error .minKeys
  else if !optFieldOk b.streetAddress streetFieldOk then .error (.invalidField "streetAddress")
  else if !optFieldOk b.suburb suburbFieldOk then .error (.invalidField "suburb")
  else if !optFieldOk b.state stateFieldOk then .error (.invalidField "state")
  else if !optFieldOk b.postcode postcodeFieldOk then .error (.invalidField "postcode")
  else if !optFieldOk b.country countryFieldOk then .error (.invalidField "country")
  else if !optFieldOk b.addressType addressTypeFieldOk then .error (.invalidField "addressType")
  else .ok b

/-! ### Address Write Engine (src/handlers/store-address.ts, duplicate-checking variant) -/

/-- Duplicate comparison of the Write Engine, lines 54-62 of the
store-address handler: `streetAddress`, `suburb` and `country` are
compared after `toLowerCase()`, while `state`, `postcode` and
`addressType` are compared with JavaScript strict equality; no value is
trimmed.  The `addressType` comparison in the source is
`existing.addressType === (value.addressType || null)`: with the optional
attribute absent on the stored record the left side is `undefined` and the
right side is `null`, and `undefined === null` is `false`, so two sides
match only when both carry an equal string. -/
def duplicateMatch (existing : Address) (v : ValidatedCreate) : Bool :=
  jsToLower existing.streetAddress == jsToLower v.streetAddress &&
  jsToLower existing.suburb == jsToLower v.suburb &&
  existing.state == v.state &&
  existing.postcode == v.postcode &&
  jsToLower existing.country == jsToLower v.country &&
  (match existing.addressType, v.addressType with
   | some a, some b => a == b
   | _, _ => false)

/-- Embedding of the store-address handler (the duplicate-checking
variant): check `userId` presence (JavaScript truthiness, so the empty
string also counts as missing) and format, validate the body against the
creation schema, query the caller's existing records
(`queryAddresses(userId)`, a partition-key query), reject a duplicate with
409 `DUPLICATE_ADDRESS`, otherwise persist the new record.  The freshly
generated UUID and the `now()` timestamp are passed in as arguments; the
table is a list of full records and `storeAddress` appends (the key is
fresh, so a put cannot overwrite). -/
def storeAddressHandler (userId? : Option String) (body : CreateBody)
    (newAddressId now : String) (store : List Address) :
    HttpResponse × List Address :=
  match userId? with
  | none => ({ status := 400, message := "Missing userId" }, store)
  | some userId =>
    if userId = "" then ({ status := 400, message := "Missing userId" }, store)
    else if !isValidUserId userId then
      ({ status := 400,
         message := "Invalid userId format. Only alphanumeric characters, hyphens (-), and underscores (_) are allowed." },
       store)
    else
      match addressCreationSchemaValidate body with
      | none => ({ status := 400, message := "Validation failed" }, store)
      | some v =>
        let existingAddresses := store.filter (fun a => a.userId == userId)
        if existingAddresses.any (fun e => duplicateMatch e v) then
          ({ status := 409,
             message := "An identical address already exists for this user",
             error := some "DUPLICATE_ADDRESS" }, store)
        else
          let address : Address :=
            { userId := userId, addressId := newAddressId,
              streetAddress := v.streetAddress, suburb := v.suburb,
              state := v.state, postcode := v.postcode, country := v.country,
              addressType := v.addressType, createdAt := now, updatedAt := now }
          ({ status := 201, message := "Address created successfully" },
           store ++ [address])

/-! ### Address Update Engine (src/handlers/update-address.ts) -/

/-- One attribute of a partial-attribute update: a field in the patch set
overwrites, a field not in the patch set is kept. -/
def patchField (patch old : Option String) : Option String :=
  match patch with
  | some v => some v
  | none => old

/-- Result of applying the update's SET expression to an existing item:
exactly the present payload fields and `updatedAt` change. -/
def applyUpdate (it : Item) (p : UpdateBody) (now : String) : Item :=
  { it with
    streetAddress := patchField p.streetAddress it.streetAddress,
    suburb := patchField p.suburb it.suburb,
    state := patchField p.state it.state,
    postcode := patchField p.postcode it.postcode,
    country := patchField p.country it.country,
    addressType := patchField p.addressType it.addressType,
    updatedAt := some now }

/-- Item materialised by an update against a missing key: the composite
key, the present payload fields and `updatedAt`; nothing else (in
particular no `createdAt`). -/
def freshUpdateItem (userId addressId : String) (p : UpdateBody) (now : String) : Item :=
  { userId := userId, addressId := addressId,
    streetAddress := p.streetAddress, suburb := p.suburb, state := p.state,
    postcode := p.postcode, country := p.country, addressType := p.addressType,
    createdAt := none, updatedAt := some now }

/-- Modelled from the spec: the address store's partial-attribute update
(the repository delegates it to DynamoDB `UpdateItem` with a `SET`
expression and `ReturnValues: ALL_NEW`, which is external to the
repository).  Per the spec's store interface (§1) and §4.4's edge-case
policy, the update is an upsert: with an item at the key, the SET
attributes overwrite that item's corresponding attributes; with no item at
the key, a new item holding only the key attributes and the SET attributes
is created.  Returns the post-update image and the new table contents. -/
def dynamoUpdate (store : List Item) (userId addressId : String)
    (p : UpdateBody) (now : String) : Item × List Item :=
  match store.find? (fun it => it.userId == userId && it.addressId == addressId) with
  | some it =>
    let newIt := applyUpdate it p now
    (newIt, store.map (fun j =>
      if j.userId == userId && j.addressId == addressId then newIt else j))
  | none =>
    let newIt := freshUpdateItem userId addressId p now
    (newIt, store ++ [newIt])

/-- Embedding of the update-address handler: check both identifiers for
presence (JavaScript truthiness) and format, validate the body against the
update schema, build the patch set from the present fields (validated
values are never the empty string, so presence coincides with the source's
truthiness tests), reject an empty patch set with the `.min(1)` message
(the source keeps this second check although the schema already enforces
it), always add `updatedAt`, and apply the upsert. -/
def updateAddressHandler (userId? addressId? : Option String) (body : UpdateBody)
    (now : String) (store : List Item) : HttpResponse × List Item :=
  let userId := userId?.getD ""
  let addressId := addressId?.getD ""
  if userId = "" ∨ addressId = "" then
    ({ status := 400, message := "Missing userId or addressId" }, store)
  else if !isValidUserId userId then
    ({ status := 400,
       message := "Invalid userId format. Only alphanumeric characters, hyphens (-), and underscores (_) are allowed." },
     store)
  else if !isValidAddressId addressId then
    ({ status := 400, message := "Invalid addressId format. Must be a valid UUID." }, store)
  else
    match addressUpdateSchemaValidate body with
    | .error e => ({ status := 400, message := e.message }, store)
    | .ok v =>
      if !v.hasAnyField then
        ({ status := 400, message := "\"value\" must have at least 1 key" }, store)
      else
        let upd := dynamoUpdate store userId addressId v now
        ({ status := 200, message := "Address updated successfully" }, upd.2)

/-! ### Delete handler (src/handlers/delete-address.ts) -/

/-- Embedding of the delete-address handler: check both identifiers for
presence and format, then delete by key unconditionally (DynamoDB
`DeleteItem` succeeds whether or not the item exists) and return 204 with
an empty body. -/
def deleteAddressHandler (userId? addressId? : Option String)
    (store : List Item) : HttpResponse × List Item :=
  let userId := userId?.getD ""
  let addressId := addressId?.getD ""
  if userId = "" ∨ addressId = "" then
    ({ status := 400, message := "Missing userId or addressId" }, store)
  else if !isValidUserId userId then
    ({ status := 400,
       message := "Invalid userId format. Only alphanumeric characters, hyphens (-), and underscores (_) are allowed." },
     store)
  else if !isValidAddressId addressId then
    ({ status := 400, message := "Invalid addressId format. Must be a valid UUID." }, store)
  else
    ({ status := 204, message := "" },
     store.filter (fun it => !(it.userId == userId && it.addressId == addressId)))

/-! ### Address Read Engine (src/handlers/get-addresses.ts) -/

/-- Embedding of the get-addresses handler: check `userId` for presence
(truthiness) and format, then query the caller's partition and apply the
optional `suburb`/`postcode` equality filters with the raw query-string
values (an empty string is falsy in JavaScript, so it behaves as an absent
filter).  No validation is applied to the filter values.  The GSI variant
of this handler routes the same equalities through key conditions, with
the same observable result set.  Returns the response and the returned
addresses. -/
def getAddressesHandler (userId? suburb? postcode? : Option String)
    (store : List Address) : HttpResponse × List Address :=
  match userId? with
  | none => ({ status := 400, message := "Missing userId" }, [])
  | some userId =>
    if userId = "" then ({ status := 400, message := "Missing userId" }, [])
    else if !isValidUserId userId then
      ({ status := 400,
         message := "Invalid userId format. Only alphanumeric characters, hyphens (-), and underscores (_) are allowed." },
       [])
    else
      let suburb := suburb?.getD ""
      let postcode := postcode?.getD ""
      let addresses := store.filter (fun a =>
        a.userId == userId &&
        (suburb == "" || a.suburb == suburb) &&
        (postcode == "" || a.postcode == postcode))
      ({ status := 200, message := "Addresses retrieved successfully" }, addresses)

/-! ### Authorization Engine (src/handlers/authorize.ts) -/

/-- Allow decision of the authorizer: an IAM policy whose principal and
context both carry the `clientId`, scoped to the requested resource. -/
structure AuthPolicy where
  principalId : String
  clientId : String
  resource : String
deriving Repr, DecidableEq

/-- Test for the literal Basic scheme marker,
`token.startsWith('Basic ')`. -/
def hasBasicMarker (s : String) : Bool :=
  s.data.take 6 == "Basic ".data

/-- Embedding of lines 33-38 of the authorizer:
`const [clientId, clientSecret] = credentials.split(':')` followed by the
falsiness check `!clientId || !clientSecret`.  JavaScript `split(':')`
splits on every colon; the destructuring keeps the first two segments, so
with no colon `clientSecret` is `undefined` (falsy) and with two or more
colons everything from the second colon on is discarded. -/
def parseCredentials (credentials : String) : Option (String × String) :=
  match splitOnChar ':' credentials.data with
  | [] => none
  | [_] => none
  | clientId :: clientSecret :: _ =>
    if clientId.isEmpty || clientSecret.isEmpty then none
    else some (⟨clientId⟩, ⟨clientSecret⟩)

/-- Embedding of the authorizer handler, parameterised by its external
collaborators: the base64 decoder (`Buffer.from(_, 'base64').toString`),
the SHA-256 hex digest and the credential-table point lookup (returning
the stored `clientSecret` digest).  Every failure path produces the same
`Unauthorized` error; on success the policy carries the `clientId`. -/
def authorizeHandler (b64decode sha256hex : String → String)
    (lookupClient : String → Option String)
    (authorizationToken : Option String) (methodArn : String) :
    Except String AuthPolicy :=
  match authorizationToken with
  | none => .error "Unauthorized"
  | some token =>
    if token = "" then .error "Unauthorized"
    else if !hasBasicMarker token then .error "Unauthorized"
    else
      match parseCredentials (b64decode (dropChars token 6)) with
      | none => .error "Unauthorized"
      | some (clientId, clientSecret) =>
        let hashedSecret := sha256hex clientSecret
        match lookupClient clientId with
        | none => .error "Unauthorized"
        | some storedSecret =>
          if storedSecret ≠ hashedSecret then .error "Unauthorized"
          else .ok { principalId := clientId, clientId := clientId, resource := methodArn }

/-! ### Lemmas about the JavaScript split model -/

/-- Unfolding equation of `splitOnChar` on a cons cell. -/
theorem splitOnChar_cons (sep c : Char) (cs : List Char) :
    splitOnChar sep (c :: cs) =
      match splitOnChar sep cs with
      | [] => [[]]
      | h :: t => if c = sep then [] :: h :: t else (c :: h) :: t := by
  rfl

/-- Splitting never yields an empty list of segments. -/
theorem splitOnChar_ne_nil (sep : Char) (l : List Char) : splitOnChar sep l ≠ [] := by
  induction l with
  | nil => simp [splitOnChar]
  | cons c cs ih =>
    rw [splitOnChar_cons]
    cases h : splitOnChar sep cs with
    | nil => exact absurd h ih
    | cons hd tl => by_cases hc : c = sep <;> simp [hc]

/-- Splitting a list that starts with the separator opens with an empty segment. -/
theorem splitOnChar_sep_cons (sep : Char) (rest : List Char) :
    splitOnChar sep (sep :: rest) = [] :: splitOnChar sep rest := by
  rw [splitOnChar_cons]
  cases h : splitOnChar sep rest with
  | nil => simp
  | cons hd tl => simp

/-- Splitting around the first separator occurrence: the separator-free
part before it is the first segment. -/
theorem splitOnChar_append (sep : Char) (a rest : List Char) (h : sep ∉ a) :
    splitOnChar sep (a ++ sep :: rest) = a :: splitOnChar sep rest := by
  induction a with
  | nil => simpa using splitOnChar_sep_cons sep rest
  | cons c cs ih =>
    have hc : c ≠ sep := fun hh => h (by simp [hh])
    have hcs : sep ∉ cs := fun hh => h (List.mem_cons_of_mem _ hh)
    show splitOnChar sep (c :: (cs ++ sep :: rest)) = (c :: cs) :: splitOnChar sep rest
    rw [splitOnChar_cons, ih hcs]
    simp [hc]

/-- Splitting a separator-free list yields that list as the only segment. -/
theorem splitOnChar_of_not_mem (sep : Char) (a : List Char) (h : sep ∉ a) :
    splitOnChar sep a = [a] := by
  induction a with
  | nil => rfl
  | cons c cs ih =>
    have hc : c ≠ sep := fun hh => h (by simp [hh])
    have hcs : sep ∉ cs := fun hh => h (List.mem_cons_of_mem _ hh)
    rw [splitOnChar_cons, ih hcs]
    simp [hc]

/-! ### Claim theorems -/

/-- C9: the postcode predicate accepts exactly the strings of four decimal
digits — `isValidPostcode` is true iff the string has length 4 and every
character is an ASCII digit; in particular `"200"`, `"20000"` and `"20ab"`
are rejected while `"0000"` and `"9999"` are accepted. -/
theorem postcode_four_digits :
    (∀ s : String, isValidPostcode s = true ↔
      (jsLength s = 4 ∧ ∀ c ∈ s.data, c.isDigit = true)) ∧
    isValidPostcode "200" = false ∧
    isValidPostcode "20000" = false ∧
    isValidPostcode "20ab" = false ∧
    isValidPostcode "0000" = true ∧
    isValidPostcode "9999" = true := by
  refine ⟨fun s => ?_, by decide, by decide, by decide, by decide, by decide⟩
  simp [isValidPostcode, jsLength, List.all_eq_true]

/-- Closed instance of C9's characterisation at the concrete input `"2000"`. -/
theorem postcode_four_digits_witness : isValidPostcode "2000" = true :=
  (postcode_four_digits.1 "2000").mpr (by decide)

/-- C1 (code evaluated at the failing input): with a stored record
`("123 Main St", "Sydney", "NSW", "2000", "Australia", residential)` for
`user_123`, a POST whose payload differs only in the letter case of
`state` (`"nsw"`) — which the creation schema accepts — is NOT detected
as a duplicate and returns 201, inserting a second record; likewise for a
payload differing only by leading/trailing whitespace in `streetAddress`.
The claim (and the repository's own unit tests and README) require 409
`DUPLICATE_ADDRESS` for both. -/
theorem storeAddress_case_whitespace_variant_not_conflict :
    isValidState "nsw" = true ∧
    (storeAddressHandler (some "user_123")
      { streetAddress := some "123 Main St", suburb := some "Sydney",
        state := some "nsw", postcode := some "2000",
        country := some "Australia", addressType := some "residential" }
      "3f2504e0-4f89-41d3-9a0c-0305e82c3301" "2024-01-02T00:00:00Z"
      [{ userId := "user_123", addressId := "existing-id",
         streetAddress := "123 Main St", suburb := "Sydney", state := "NSW",
         postcode := "2000", country := "Australia",
         addressType := some "residential",
         createdAt := "2024-01-01T00:00:00Z",
         updatedAt := "2024-01-01T00:00:00Z" }]).1.status = 201 ∧
    (storeAddressHandler (some "user_123")
      { streetAddress := some "  123 Main St  ", suburb := some "Sydney",
        state := some "NSW", postcode := some "2000",
        country := some "Australia", addressType := some "residential" }
      "3f2504e0-4f89-41d3-9a0c-0305e82c3301" "2024-01-02T00:00:00Z"
      [{ userId := "user_123", addressId := "existing-id",
         streetAddress := "123 Main St", suburb := "Sydney", state := "NSW",
         postcode := "2000", country := "Australia",
         addressType := some "residential",
         createdAt := "2024-01-01T00:00:00Z",
         updatedAt := "2024-01-01T00:00:00Z" }]).1.status = 201 ∧
    (storeAddressHandler (some "user_123")
      { streetAddress := some "123 Main St", suburb := some "Sydney",
        state := some "NSW", postcode := some "2000",
        country := some "Australia", addressType := some "residential" }
      "3f2504e0-4f89-41d3-9a0c-0305e82c3301" "2024-01-02T00:00:00Z"
      [{ userId := "user_123", addressId := "existing-id",
         streetAddress := "123 Main St", suburb := "Sydney", state := "NSW",
         postcode := "2000", country := "Australia",
         addressType := some "residential",
         createdAt := "2024-01-01T00:00:00Z",
         updatedAt := "2024-01-01T00:00:00Z" }]).1.status = 409 := by
  refine ⟨by decide, by decide, by decide, by decide⟩

/-- C2 (code evaluated at the failing input): POSTing
`(streetAddress "123 Main Street", suburb "Sydney", state "NSW",
postcode "2000")` without `addressType` for `user_test_123` stores a
record with `addressType` absent and `country` defaulted; immediately
repeating the identical POST returns 201 again and inserts a second
record, because `existing.addressType === (value.addressType || null)`
compares the stored `undefined` with `null`.  The claim (and the spec's
repeat-POST scenario) require 409 `DUPLICATE_ADDRESS`. -/
theorem storeAddress_repeat_without_addressType_not_conflict :
    (storeAddressHandler (some "user_test_123")
      { streetAddress := some "123 Main Street", suburb := some "Sydney",
        state := some "NSW", postcode := some "2000" }
      "11111111-1111-4111-8111-111111111111" "2024-01-01T00:00:00Z" []).1.status = 201 ∧
    (storeAddressHandler (some "user_test_123")
      { streetAddress := some "123 Main Street", suburb := some "Sydney",
        state := some "NSW", postcode := some "2000" }
      "11111111-1111-4111-8111-111111111111" "2024-01-01T00:00:00Z" []).2.map
        (fun a => (a.addressType, a.country)) = [(none, "Australia")] ∧
    (storeAddressHandler (some "user_test_123")
      { streetAddress := some "123 Main Street", suburb := some "Sydney",
        state := some "NSW", postcode := some "2000" }
      "22222222-2222-4222-8222-222222222222" "2024-01-01T00:01:00Z"
      (storeAddressHandler (some "user_test_123")
        { streetAddress := some "123 Main Street", suburb := some "Sydney",
          state := some "NSW", postcode := some "2000" }
        "11111111-1111-4111-8111-111111111111" "2024-01-01T00:00:00Z" []).2).1.status = 201 ∧
    (storeAddressHandler (some "user_test_123")
      { streetAddress := some "123 Main Street", suburb := some "Sydney",
        state := some "NSW", postcode := some "2000" }
      "22222222-2222-4222-8222-222222222222" "2024-01-01T00:01:00Z"
      (storeAddressHandler (some "user_test_123")
        { streetAddress := some "123 Main Street", suburb := some "Sydney",
          state := some "NSW", postcode := some "2000" }
        "11111111-1111-4111-8111-111111111111" "2024-01-01T00:00:00Z" []).2).2.length = 2 := by
  refine ⟨by decide, by decide, by decide, by decide⟩

/-- C8 counterexample: a GET whose `suburb` filter value `"@@@"` fails the
write-side suburb predicate is not rejected — the handler returns 200 and
uses the raw value as the query equality (here matching a stored item
whose suburb is `"@@@"`), so the Read Engine does not validate filter
values with the Validation Library's predicates. -/
theorem get_filter_validation_cex :
    isValidSuburb "@@@" = false ∧
    (getAddressesHandler (some "user_123") (some "@@@") none []).1.status = 200 ∧
    (getAddressesHandler (some "user_123") (some "@@@") none
      [{ userId := "user_123", addressId := "x", streetAddress := "1 A St",
         suburb := "@@@", state := "NSW", postcode := "2000",
         country := "Australia", addressType := none,
         createdAt := "t", updatedAt := "t" }]).2.length = 1 := by
  refine ⟨by decide, by decide, by decide⟩

/-- C8 (amended): the Read Engine validates only the `userId`; the
`suburb` and `postcode` filter values are passed into the store query as
given, with no validation — a GET whose `suburb` value fails
`isValidSuburb` still returns 200, its result being the raw equality
filter over the caller's records. -/
theorem get_filters_pass_through
    (userId suburb : String) (postcode? : Option String) (store : List Address)
    (hu : isValidUserId userId = true)
    (_hs : isValidSuburb suburb = false) (_hsne : suburb ≠ "") :
    (getAddressesHandler (some userId) (some suburb) postcode? store).1.status = 200 ∧
    (getAddressesHandler (some userId) (some suburb) postcode? store).2 =
      store.filter (fun a =>
        a.userId == userId &&
        (suburb == "" || a.suburb == suburb) &&
        ((postcode?.getD "") == "" || a.postcode == postcode?.getD "")) := by
  have hune : userId ≠ "" := by rintro rfl; revert hu; decide
  unfold getAddressesHandler
  simp [hune, hu]

/-- Closed instance of C8's amended theorem at a concrete invalid filter value. -/
theorem get_filters_pass_through_witness :
    (getAddressesHandler (some "user_123") (some "bad suburb;;") none
      ([] : List Address)).1.status = 200 :=
  (get_filters_pass_through "user_123" "bad suburb;;" none []
    (by decide) (by decide) (by decide)).1

/-- C4 counterexample: for the token `Basic` + base64 of `a:b:c` (the
decoder and digest instantiated with the identity so the decoded remainder
is literally `a:b:c`), the engine takes `clientSecret = "b"`, not the
claimed `"b:c"`: with the stored digest equal to the digest of `"b:c"` the
request is rejected, and with the stored digest equal to the digest of
`"b"` it is accepted. -/
theorem authorize_split_first_colon_cex :
    parseCredentials "a:b:c" = some ("a", "b") ∧
    (("a", "b") : String × String) ≠ ("a", "b:c") ∧
    authorizeHandler (fun s => s) (fun s => s)
      (fun cid => if cid = "a" then some "b:c" else none)
      (some "Basic a:b:c") "arn" = .error "Unauthorized" ∧
    authorizeHandler (fun s => s) (fun s => s)
      (fun cid => if cid = "a" then some "b" else none)
      (some "Basic a:b:c") "arn" =
      .ok { principalId := "a", clientId := "a", resource := "arn" } := by
  refine ⟨by decide, by decide, by rfl, by rfl⟩

/-- Failure class 1 of the authorizer: the Authorization header is
missing (absent or, equivalently under JavaScript truthiness, empty). -/
def failsMissingHeader (token : Option String) : Prop :=
  token = none ∨ token = some ""

/-- Failure class 2: a token present but not prefixed with the Basic
scheme marker. -/
def failsBadScheme (token : Option String) : Prop :=
  ∃ s, token = some s ∧ s ≠ "" ∧ hasBasicMarker s = false

/-- Failure class 3: a Basic token whose decoded remainder is malformed —
no colon, or an empty part before or after the first colon. -/
def failsMalformedCreds (b64decode : String → String) (token : Option String) : Prop :=
  ∃ s, token = some s ∧ hasBasicMarker s = true ∧
    parseCredentials (b64decode (dropChars s 6)) = none

/-- Failure class 4: well-formed credentials naming a `clientId` with no
record in the credential store. -/
def failsUnknownClient (b64decode : String → String)
    (lookupClient : String → Option String) (token : Option String) : Prop :=
  ∃ s cid sec, token = some s ∧ hasBasicMarker s = true ∧
    parseCredentials (b64decode (dropChars s 6)) = some (cid, sec) ∧
    lookupClient cid = none

/-- Failure class 5: a known `clientId` whose stored digest differs from
the digest of the supplied secret. -/
def failsWrongSecret (b64decode sha256hex : String → String)
    (lookupClient : String → Option String) (token : Option String) : Prop :=
  ∃ s cid sec stored, token = some s ∧ hasBasicMarker s = true ∧
    parseCredentials (b64decode (dropChars s 6)) = some (cid, sec) ∧
    lookupClient cid = some stored ∧ stored ≠ sha256hex sec

/-- Any of the five authorization failure classes. -/
def authRequestFails (b64decode sha256hex : String → String)
    (lookupClient : String → Option String) (token : Option String) : Prop :=
  failsMissingHeader token ∨ failsBadScheme token ∨
  failsMalformedCreds b64decode token ∨
  failsUnknownClient b64decode lookupClient token ∨
  failsWrongSecret b64decode sha256hex lookupClient token

/-- A failing authorization request always yields the literal
`Unauthorized` error. -/
theorem authorizeHandler_fails_unauthorized
    (b64decode sha256hex : String → String) (lookupClient : String → Option String)
    (token : Option String) (arn : String)
    (h : authRequestFails b64decode sha256hex lookupClient token) :
    authorizeHandler b64decode sha256hex lookupClient token arn = .error "Unauthorized" := by
  rcases h with (h | h) | ⟨s, htok, hne, hmark⟩ | ⟨s, htok, hmark, hparse⟩ |
    ⟨s, cid, sec, htok, hmark, hparse, hlook⟩ |
    ⟨s, cid, sec, stored, htok, hmark, hparse, hlook, hsec⟩
  · subst h; rfl
  · subst h; rfl
  · subst htok
    simp [authorizeHandler, hne, hmark]
  · subst htok
    have hne : s ≠ "" := by rintro rfl; revert hmark; decide
    simp [authorizeHandler, hne, hmark, hparse]
  · subst htok
    have hne : s ≠ "" := by rintro rfl; revert hmark; decide
    simp [authorizeHandler, hne, hmark, hparse, hlook]
  · subst htok
    have hne : s ≠ "" := by rintro rfl; revert hmark; decide
    simp [authorizeHandler, hne, hmark, hparse, hlook, hsec]

/-- C3: authorization failure is opaque — any two failing requests
(missing header, wrong scheme, malformed decoded credentials, unknown
`clientId`, or wrong secret for a known `clientId`) produce exactly the
same `Unauthorized` outcome, for every decoder, digest function and
credential store. -/
theorem authorize_failures_indistinguishable
    (b64decode sha256hex : String → String) (lookupClient : String → Option String)
    (t1 t2 : Option String) (arn1 arn2 : String)
    (h1 : authRequestFails b64decode sha256hex lookupClient t1)
    (h2 : authRequestFails b64decode sha256hex lookupClient t2) :
    authorizeHandler b64decode sha256hex lookupClient t1 arn1 = .error "Unauthorized" ∧
    authorizeHandler b64decode sha256hex lookupClient t1 arn1 =
      authorizeHandler b64decode sha256hex lookupClient t2 arn2 := by
  have e1 := authorizeHandler_fails_unauthorized b64decode sha256hex lookupClient t1 arn1 h1
  have e2 := authorizeHandler_fails_unauthorized b64decode sha256hex lookupClient t2 arn2 h2
  exact ⟨e1, e1.trans e2.symm⟩

/-- Closed instance of C3 at two concrete failing requests from different
classes: a missing header and a `Bearer` token. -/
theorem authorize_failures_indistinguishable_witness :
    authorizeHandler (fun s => s) (fun s => s) (fun _ => none) none "arn-a" =
      .error "Unauthorized" ∧
    authorizeHandler (fun s => s) (fun s => s) (fun _ => none) none "arn-a" =
      authorizeHandler (fun s => s) (fun s => s) (fun _ => none)
        (some "Bearer abc") "arn-b" :=
  authorize_failures_indistinguishable (fun s => s) (fun s => s) (fun _ => none)
    none (some "Bearer abc") "arn-a" "arn-b"
    (Or.inl (Or.inl rfl))
    (Or.inr (Or.inl ⟨"Bearer abc", rfl, by decide, by decide⟩))

/-- C4 (amended): the engine splits the decoded credentials on every
colon and keeps the first two segments — `clientId` is the text before
the first colon and `clientSecret` is the text between the first and
second colon (for the ordinary single-colon credential this is the whole
remainder after the colon, and anything from a second colon on is
discarded); that (possibly truncated) `clientSecret` is what is hashed and
compared against the stored digest; with no colon, or an empty first or
second segment, the request fails with `Unauthorized`.  The five parts
cover the zero-colon, exactly-one-colon and two-or-more-colon remainders,
the latter two both at the parser and at the whole-handler level. -/
theorem authorize_split_every_colon :
    (∀ credentials : List Char, ':' ∉ credentials →
      parseCredentials ⟨credentials⟩ = none) ∧
    (∀ a b : List Char, ':' ∉ a → ':' ∉ b →
      parseCredentials ⟨a ++ ':' :: b⟩ =
        if a.isEmpty || b.isEmpty then none else some (⟨a⟩, ⟨b⟩)) ∧
    (∀ a b rest : List Char, ':' ∉ a → ':' ∉ b →
      parseCredentials ⟨a ++ ':' :: (b ++ ':' :: rest)⟩ =
        if a.isEmpty || b.isEmpty then none else some (⟨a⟩, ⟨b⟩)) ∧
    (∀ (b64decode sha256hex : String → String) (lookupClient : String → Option String)
        (token arn : String) (a b : List Char),
      hasBasicMarker token = true →
      (b64decode (dropChars token 6)).data = a ++ ':' :: b →
      ':' ∉ a → ':' ∉ b → a ≠ [] → b ≠ [] →
      authorizeHandler b64decode sha256hex lookupClient (some token) arn =
        match lookupClient ⟨a⟩ with
        | none => .error "Unauthorized"
        | some storedSecret =>
          if storedSecret ≠ sha256hex ⟨b⟩ then .error "Unauthorized"
          else .ok { principalId := ⟨a⟩, clientId := ⟨a⟩, resource := arn }) ∧
    (∀ (b64decode sha256hex : String → String) (lookupClient : String → Option String)
        (token arn : String) (a b rest : List Char),
      hasBasicMarker token = true →
      (b64decode (dropChars token 6)).data = a ++ ':' :: (b ++ ':' :: rest) →
      ':' ∉ a → ':' ∉ b → a ≠ [] → b ≠ [] →
      authorizeHandler b64decode sha256hex lookupClient (some token) arn =
        match lookupClient ⟨a⟩ with
        | none => .error "Unauthorized"
        | some storedSecret =>
          if storedSecret ≠ sha256hex ⟨b⟩ then .error "Unauthorized"
          else .ok { principalId := ⟨a⟩, clientId := ⟨a⟩, resource := arn }) := by
  have hsplit : ∀ credentials : String,
      parseCredentials credentials =
        match splitOnChar ':' credentials.data with
        | [] => none
        | [_] => none
        | clientId :: clientSecret :: _ =>
          if clientId.isEmpty || clientSecret.isEmpty then none
          else some (String.mk clientId, String.mk clientSecret) :=
    fun _ => rfl
  have hparse1 : ∀ a b : List Char, ':' ∉ a → ':' ∉ b →
      parseCredentials ⟨a ++ ':' :: b⟩ =
        if a.isEmpty || b.isEmpty then none else some (⟨a⟩, ⟨b⟩) := by
    intro a b ha hb
    rw [hsplit]
    show (match splitOnChar ':' (a ++ ':' :: b) with
      | [] => none
      | [_] => none
      | clientId :: clientSecret :: _ =>
        if clientId.isEmpty || clientSecret.isEmpty then none
        else some (String.mk clientId, String.mk clientSecret)) =
      if a.isEmpty || b.isEmpty then none else some (⟨a⟩, ⟨b⟩)
    rw [splitOnChar_append ':' a b ha, splitOnChar_of_not_mem ':' b hb]
  have hparse2 : ∀ a b rest : List Char, ':' ∉ a → ':' ∉ b →
      parseCredentials ⟨a ++ ':' :: (b ++ ':' :: rest)⟩ =
        if a.isEmpty || b.isEmpty then none else some (⟨a⟩, ⟨b⟩) := by
    intro a b rest ha hb
    rw [hsplit]
    show (match splitOnChar ':' (a ++ ':' :: (b ++ ':' :: rest)) with
      | [] => none
      | [_] => none
      | clientId :: clientSecret :: _ =>
        if clientId.isEmpty || clientSecret.isEmpty then none
        else some (String.mk clientId, String.mk clientSecret)) =
      if a.isEmpty || b.isEmpty then none else some (⟨a⟩, ⟨b⟩)
    rw [splitOnChar_append ':' a _ ha, splitOnChar_append ':' b rest hb]
  have hhandler : ∀ (b64decode sha256hex : String → String)
      (lookupClient : String → Option String) (token arn cid sec : String),
      token ≠ "" → hasBasicMarker token = true →
      parseCredentials (b64decode (dropChars token 6)) = some (cid, sec) →
      authorizeHandler b64decode sha256hex lookupClient (some token) arn =
        match lookupClient cid with
        | none => .error "Unauthorized"
        | some storedSecret =>
          if storedSecret ≠ sha256hex sec then .error "Unauthorized"
          else .ok { principalId := cid, clientId := cid, resource := arn } := by
    intro b64decode sha256hex lookupClient token arn cid sec hne hmark hcred
    simp [authorizeHandler, hne, hmark, hcred]
  refine ⟨?_, hparse1, hparse2, ?_, ?_⟩
  · intro credentials hns
    rw [hsplit]
    show (match splitOnChar ':' credentials with
      | [] => none
      | [_] => none
      | clientId :: clientSecret :: _ =>
        if clientId.isEmpty || clientSecret.isEmpty then none
        else some (String.mk clientId, String.mk clientSecret)) = none
    rw [splitOnChar_of_not_mem ':' credentials hns]
  · intro b64decode sha256hex lookupClient token arn a b hmark hdata ha hb hane hbne
    have hne : token ≠ "" := by rintro rfl; revert hmark; decide
    have hcred : parseCredentials (b64decode (dropChars token 6)) = some (⟨a⟩, ⟨b⟩) := by
      have hrw : parseCredentials (b64decode (dropChars token 6)) =
          parseCredentials ⟨a ++ ':' :: b⟩ := by
        rw [hsplit, hsplit, hdata]
      rw [hrw, hparse1 a b ha hb]
      simp [List.isEmpty_iff, hane, hbne]
    exact hhandler b64decode sha256hex lookupClient token arn ⟨a⟩ ⟨b⟩ hne hmark hcred
  · intro b64decode sha256hex lookupClient token arn a b rest hmark hdata ha hb hane hbne
    have hne : token ≠ "" := by rintro rfl; revert hmark; decide
    have hcred : parseCredentials (b64decode (dropChars token 6)) = some (⟨a⟩, ⟨b⟩) := by
      have hrw : parseCredentials (b64decode (dropChars token 6)) =
          parseCredentials ⟨a ++ ':' :: (b ++ ':' :: rest)⟩ := by
        rw [hsplit, hsplit, hdata]
      rw [hrw, hparse2 a b rest ha hb]
      simp [List.isEmpty_iff, hane, hbne]
    exact hhandler b64decode sha256hex lookupClient token arn ⟨a⟩ ⟨b⟩ hne hmark hcred

/-- Closed instance of C4's amended theorem: with the identity decoder and
digest, the single-colon credential `u:p` is accepted against the stored
digest of `p`, and the two-colon credential `u:p:q` is accepted against
the stored digest of the between-colons segment `p`. -/
theorem authorize_split_every_colon_witness :
    authorizeHandler (fun s => s) (fun s => s) (fun _ => some "p")
      (some "Basic u:p") "arn" =
      .ok { principalId := "u", clientId := "u", resource := "arn" } ∧
    authorizeHandler (fun s => s) (fun s => s) (fun _ => some "p")
      (some "Basic u:p:q") "arn" =
      .ok { principalId := "u", clientId := "u", resource := "arn" } := by
  constructor
  · have h := authorize_split_every_colon.2.2.2.1 (fun s => s) (fun s => s)
      (fun _ => some "p") "Basic u:p" "arn" ['u'] ['p']
      (by decide) rfl (by decide) (by decide) (by decide) (by decide)
    exact h.trans (by rfl)
  · have h := authorize_split_every_colon.2.2.2.2 (fun s => s) (fun s => s)
      (fun _ => some "p") "Basic u:p:q" "arn" ['u'] ['p'] ['q']
      (by decide) rfl (by decide) (by decide) (by decide) (by decide)
    exact h.trans (by rfl)

/-- Validity of the payload implies at least one recognised field is present. -/
theorem hasAnyField_of_validate_ok (body : UpdateBody)
    (hval : addressUpdateSchemaValidate body = .ok body) :
    body.hasAnyField = true := by
  by_cases h : body.hasAnyField = true
  · exact h
  · rw [Bool.not_eq_true] at h
    simp [addressUpdateSchemaValidate, h] at hval

/-- C5: for every valid `userId`, every valid-UUID `addressId` with no
record at the key, and every non-empty valid partial payload, a PATCH
returns 200 and materialises a record holding exactly the patched
attributes, `updatedAt`, and the key — it does not fail with not-found. -/
theorem update_missing_record_upserts
    (userId addressId now : String) (body : UpdateBody) (store : List Item)
    (hu : isValidUserId userId = true)
    (ha : isValidAddressId addressId = true)
    (hmiss : store.find? (fun it => it.userId == userId && it.addressId == addressId) = none)
    (hval : addressUpdateSchemaValidate body = .ok body) :
    (updateAddressHandler (some userId) (some addressId) body now store).1.status = 200 ∧
    (updateAddressHandler (some userId) (some addressId) body now store).2 =
      store ++ [freshUpdateItem userId addressId body now] ∧
    freshUpdateItem userId addressId body now =
      { userId := userId, addressId := addressId,
        streetAddress := body.streetAddress, suburb := body.suburb,
        state := body.state, postcode := body.postcode,
        country := body.country, addressType := body.addressType,
        createdAt := none, updatedAt := some now } := by
  have hune : userId ≠ "" := by rintro rfl; revert hu; decide
  have hane : addressId ≠ "" := by rintro rfl; revert ha; decide
  have hany := hasAnyField_of_validate_ok body hval
  unfold updateAddressHandler dynamoUpdate
  simp [hune, hane, hu, ha, hval, hany, hmiss, freshUpdateItem]

/-- Closed instance of C5: a PATCH of `suburb` against an empty table
succeeds with 200 and creates the partial item. -/
theorem update_missing_record_upserts_witness :
    (updateAddressHandler (some "user_test_123")
      (some "123e4567-e89b-12d3-a456-426614174000")
      { suburb := some "Melbourne" } "2024-01-02T00:00:00Z" []).1.status = 200 ∧
    (updateAddressHandler (some "user_test_123")
      (some "123e4567-e89b-12d3-a456-426614174000")
      { suburb := some "Melbourne" } "2024-01-02T00:00:00Z" []).2 =
      [] ++ [freshUpdateItem "user_test_123" "123e4567-e89b-12d3-a456-426614174000"
        { suburb := some "Melbourne" } "2024-01-02T00:00:00Z"] :=
  have h := update_missing_record_upserts "user_test_123"
    "123e4567-e89b-12d3-a456-426614174000" "2024-01-02T00:00:00Z"
    { suburb := some "Melbourne" } [] (by decide) (by decide) rfl rfl
  ⟨h.1, h.2.1⟩

/-- C6: a PATCH whose payload is exactly `(suburb := X)` against a stored
record leaves every attribute but `suburb` and `updatedAt` unchanged —
the post-update record is the stored one with only those two attributes
replaced, and under the hypotheses that the new values differ from the old
ones, those two attributes do change. -/
theorem update_suburb_patch_minimal
    (R : Item) (X now : String)
    (hu : isValidUserId R.userId = true)
    (ha : isValidAddressId R.addressId = true)
    (hx : suburbFieldOk X = true)
    (hnsub : some X ≠ R.suburb)
    (hnupd : some now ≠ R.updatedAt) :
    (updateAddressHandler (some R.userId) (some R.addressId)
      { suburb := some X } now [R]).1.status = 200 ∧
    (updateAddressHandler (some R.userId) (some R.addressId)
      { suburb := some X } now [R]).2 =
      [{ R with suburb := some X, updatedAt := some now }] ∧
    ({ R with suburb := some X, updatedAt := some now } : Item).suburb ≠ R.suburb ∧
    ({ R with suburb := some X, updatedAt := some now } : Item).updatedAt ≠ R.updatedAt ∧
    ({ R with suburb := some X, updatedAt := some now } : Item).userId = R.userId ∧
    ({ R with suburb := some X, updatedAt := some now } : Item).addressId = R.addressId ∧
    ({ R with suburb := some X, updatedAt := some now } : Item).streetAddress = R.streetAddress ∧
    ({ R with suburb := some X, updatedAt := some now } : Item).state = R.state ∧
    ({ R with suburb := some X, updatedAt := some now } : Item).postcode = R.postcode ∧
    ({ R with suburb := some X, updatedAt := some now } : Item).country = R.country ∧
    ({ R with suburb := some X, updatedAt := some now } : Item).addressType = R.addressType ∧
    ({ R with suburb := some X, updatedAt := some now } : Item).createdAt = R.createdAt := by
  have hune : R.userId ≠ "" := by
    intro he; rw [he] at hu; revert hu; decide
  have hane : R.addressId ≠ "" := by
    intro he; rw [he] at ha; revert ha; decide
  have hval : addressUpdateSchemaValidate { suburb := some X } = .ok { suburb := some X } := by
    simp [addressUpdateSchemaValidate, UpdateBody.hasAnyField, optFieldOk, hx]
  have hfind : ([R].find? (fun it => it.userId == R.userId && it.addressId == R.addressId)) =
      some R := by
    simp [List.find?]
  refine ⟨?_, ?_, hnsub, hnupd, rfl, rfl, rfl, rfl, rfl, rfl, rfl, rfl⟩
  · unfold updateAddressHandler
    simp [hune, hane, hu, ha, hval, UpdateBody.hasAnyField]
  · unfold updateAddressHandler dynamoUpdate
    simp [hune, hane, hu, ha, hval, UpdateBody.hasAnyField, hfind,
      applyUpdate, patchField]

/-- Closed instance of C6 at a concrete stored record and patch. -/
theorem update_suburb_patch_minimal_witness :
    (updateAddressHandler (some "user_test_123")
      (some "123e4567-e89b-12d3-a456-426614174000")
      { suburb := some "Newtown" } "2024-01-02T00:00:00Z"
      [{ userId := "user_test_123",
         addressId := "123e4567-e89b-12d3-a456-426614174000",
         streetAddress := some "1 A St", suburb := some "Sydney",
         state := some "NSW", postcode := some "2000",
         country := some "Australia", addressType := none,
         createdAt := some "2024-01-01T00:00:00Z",
         updatedAt := some "2024-01-01T00:00:00Z" }]).2 =
      [{ userId := "user_test_123",
         addressId := "123e4567-e89b-12d3-a456-426614174000",
         streetAddress := some "1 A St", suburb := some "Newtown",
         state := some "NSW", postcode := some "2000",
         country := some "Australia", addressType := none,
         createdAt := some "2024-01-01T00:00:00Z",
         updatedAt := some "2024-01-02T00:00:00Z" }] :=
  (update_suburb_patch_minimal
    { userId := "user_test_123",
      addressId := "123e4567-e89b-12d3-a456-426614174000",
      streetAddress := some "1 A St", suburb := some "Sydney",
      state := some "NSW", postcode := some "2000",
      country := some "Australia", addressType := none,
      createdAt := some "2024-01-01T00:00:00Z",
      updatedAt := some "2024-01-01T00:00:00Z" }
    "Newtown" "2024-01-02T00:00:00Z"
    (by decide) (by decide) (by decide) (by decide) (by decide)).2.1

/-- C7: a PATCH whose payload has no recognised address field (the empty
object included) is rejected with 400 and the `.min(1)` message, and the
store is untouched. -/
theorem update_empty_payload_rejected
    (userId addressId now : String) (store : List Item) (body : UpdateBody)
    (hu : isValidUserId userId = true)
    (ha : isValidAddressId addressId = true)
    (hempty : body.hasAnyField = false) :
    (updateAddressHandler (some userId) (some addressId) body now store).1 =
      { status := 400, message := "\"value\" must have at least 1 key" } ∧
    (updateAddressHandler (some userId) (some addressId) body now store).2 = store := by
  have hune : userId ≠ "" := by rintro rfl; revert hu; decide
  have hane : addressId ≠ "" := by rintro rfl; revert ha; decide
  have hval : addressUpdateSchemaValidate body = .error .minKeys := by
    simp [addressUpdateSchemaValidate, hempty]
  unfold updateAddressHandler
  simp [hune, hane, hu, ha, hval, UpdateError.message]

/-- Closed instance of C7: PATCHing the empty object leaves a singleton
store unchanged and yields the at-least-one-key message. -/
theorem update_empty_payload_rejected_witness :
    (updateAddressHandler (some "user_test_123")
      (some "123e4567-e89b-12d3-a456-426614174000") {} "2024-01-02T00:00:00Z"
      [{ userId := "user_test_123",
         addressId := "123e4567-e89b-12d3-a456-426614174000" }]).1 =
      { status := 400, message := "\"value\" must have at least 1 key" } ∧
    (updateAddressHandler (some "user_test_123")
      (some "123e4567-e89b-12d3-a456-426614174000") {} "2024-01-02T00:00:00Z"
      [{ userId := "user_test_123",
         addressId := "123e4567-e89b-12d3-a456-426614174000" }]).2 =
      [{ userId := "user_test_123",
         addressId := "123e4567-e89b-12d3-a456-426614174000" }] :=
  update_empty_payload_rejected "user_test_123"
    "123e4567-e89b-12d3-a456-426614174000" "2024-01-02T00:00:00Z"
    [{ userId := "user_test_123",
       addressId := "123e4567-e89b-12d3-a456-426614174000" }] {}
    (by decide) (by decide) (by decide)

/-- C10: client-error atomicity — whenever the store-address,
update-address or delete-address handler returns a 4xx response, the
address store is returned unchanged: every such return happens before any
write is issued. -/
theorem client_error_responses_preserve_store :
    (∀ (u : Option String) (body : CreateBody) (aid now : String) (store : List Address),
      400 ≤ (storeAddressHandler u body aid now store).1.status →
      (storeAddressHandler u body aid now store).1.status < 500 →
      (storeAddressHandler u body aid now store).2 = store) ∧
    (∀ (u a : Option String) (body : UpdateBody) (now : String) (store : List Item),
      400 ≤ (updateAddressHandler u a body now store).1.status →
      (updateAddressHandler u a body now store).1.status < 500 →
      (updateAddressHandler u a body now store).2 = store) ∧
    (∀ (u a : Option String) (store : List Item),
      400 ≤ (deleteAddressHandler u a store).1.status →
      (deleteAddressHandler u a store).1.status < 500 →
      (deleteAddressHandler u a store).2 = store) := by
  refine ⟨?_, ?_, ?_⟩
  · intro u body aid now store
    unfold storeAddressHandler
    rcases u with _ | userId
    · intro _ _; rfl
    · by_cases h1 : userId = ""
      · intro _ _; simp [h1]
      · cases h2 : isValidUserId userId
        · intro _ _; simp [h1, h2]
        · cases hv : addressCreationSchemaValidate body with
          | none => intro _ _; simp [h1, h2, hv]
          | some v =>
            cases h3 : (store.filter (fun a => a.userId == userId)).any
                (fun e => duplicateMatch e v)
            · intro hge _
              exfalso
              simp [h1, h2, hv, h3] at hge
            · intro _ _; simp [h1, h2, hv, h3]
  · intro u a body now store
    unfold updateAddressHandler
    by_cases h1 : u.getD "" = "" ∨ a.getD "" = ""
    · intro _ _; simp [h1]
    · cases h2 : isValidUserId (u.getD "")
      · intro _ _; simp [h1, h2]
      · cases h3 : isValidAddressId (a.getD "")
        · intro _ _; simp [h1, h2, h3]
        · cases hv : addressUpdateSchemaValidate body with
          | error e => intro _ _; simp [h1, h2, h3, hv]
          | ok v =>
            cases h4 : v.hasAnyField
            · intro _ _; simp [h1, h2, h3, hv, h4]
            · intro hge _
              exfalso
              simp [h1, h2, h3, hv, h4] at hge
  · intro u a store
    unfold deleteAddressHandler
    by_cases h1 : u.getD "" = "" ∨ a.getD "" = ""
    · intro _ _; simp [h1]
    · cases h2 : isValidUserId (u.getD "")
      · intro _ _; simp [h1, h2]
      · cases h3 : isValidAddressId (a.getD "")
        · intro _ _; simp [h1, h2, h3]
        · intro hge _
          exfalso
          simp [h1, h2, h3] at hge

/-- Closed instance of C10 at three concrete 4xx requests: a POST with no
`userId`, a PATCH with a malformed `addressId`, and a DELETE with both
identifiers missing. -/
theorem client_error_responses_preserve_store_witness :
    (storeAddressHandler none {} "i" "t" []).2 = ([] : List Address) ∧
    (updateAddressHandler (some "user_1") (some "bad-uuid") {} "t"
      [{ userId := "user_1", addressId := "x" }]).2 =
      [{ userId := "user_1", addressId := "x" }] ∧
    (deleteAddressHandler none none
      [{ userId := "user_1", addressId := "x" }]).2 =
      [{ userId := "user_1", addressId := "x" }] :=
  ⟨client_error_responses_preserve_store.1 none {} "i" "t" [] (by decide) (by decide),
   client_error_responses_preserve_store.2.1 (some "user_1") (some "bad-uuid") {} "t"
     [{ userId := "user_1", addressId := "x" }] (by decide) (by decide),
   client_error_responses_preserve_store.2.2 none none
     [{ userId := "user_1", addressId := "x" }] (by decide) (by decide)⟩

end UserAddressApi

